import Mathlib

/-!
Shallow embedding of the clock-trust subsystem of `CLOCKupdateDST.py`
(class `TimeManager`).

Modelling conventions:
* Timestamps (`datetime.now()`) are abstract ticks `Nat`, passed explicitly
  to each state-updating operation; durations (`datetime` subtraction) are `Int`.
* The external `timedatectl` probe is modelled by its observable outcome:
  either the parsed value of interest, or one of the distinct failure shapes
  the code reacts to (exit code 0 but the label line absent; non-zero exit
  code, which `subprocess.run` reports without raising; an `OSError`-style
  command failure; a `TimeoutExpired`).  The parse of the label line
  (`split` on the label, `strip`, lowercase membership in `['yes','true']`)
  is folded into the outcome, since the code consumes only that Boolean.
* Fields of `TimeManager` that are pure I/O plumbing (the monitor thread
  handle, the stop flag) or never written (`time_drift_warnings`) are not
  part of the state record; `print` calls and the best-effort
  `systemctl show` sub-probe (whose result is only printed) are omitted.
-/

/-- Expected timezone constant `EXPECTED_TIMEZONE` of the source. -/
def EXPECTED_TIMEZONE : String := "Europe/Amsterdam"

/-- Background monitor period constant `NTP_CHECK_INTERVAL` of the source. -/
def NTP_CHECK_INTERVAL : Nat := 300

/-- Kind of a DST transition: `"Spring Forward"` or `"Fall Back"` in the source. -/
inductive DstKind where
  | springForward
  | fallBack
deriving DecidableEq, Repr

/-- One entry of `dst_transitions_logged`: the dict
`{'time': now, 'type': transition_type, 'dst_active': current_dst}`. -/
structure DstEvent where
  time : Nat
  kind : DstKind
  dst_active : Bool
deriving DecidableEq, Repr

/-- The mutable state of class `TimeManager` (fields of `__init__` that the
modelled operations read or write). -/
structure TimeManager where
  timezone_verified : Bool
  ntp_synced : Bool
  last_ntp_sync_time : Option Nat
  ntp_loss_time : Option Nat
  dst_transitions_logged : List DstEvent
  last_dst_state : Option Bool
  startup_diagnostics_done : Bool
  offline_mode : Bool
deriving DecidableEq, Repr

/-- The state built by `TimeManager.__init__`. -/
def initTM : TimeManager :=
  { timezone_verified := false
    ntp_synced := false
    last_ntp_sync_time := none
    ntp_loss_time := none
    dst_transitions_logged := []
    last_dst_state := none
    startup_diagnostics_done := false
    offline_mode := false }

/-- Observable outcome of the `timedatectl` probe for `_check_timezone`:
the reported timezone text (the part of the `Time zone:` line after the
label, stripped) or one of the failure shapes distinguished by the code. -/
inductive TzOutcome where
  /-- Exit code 0 and a `Time zone:` line present, carrying its stripped text. -/
  | ok (reported : String)
  /-- Exit code 0 but no line contains `Time zone:`. -/
  | noLabel
  /-- The command ran but returned a non-zero exit code (no exception). -/
  | nonZeroExit
  /-- `subprocess.run` raised an `OSError`-style exception. -/
  | cmdError
  /-- `subprocess.run` raised `TimeoutExpired`. -/
  | timeout
deriving DecidableEq, Repr

/-- Observable outcome of the `timedatectl` probe for the NTP checks:
the Boolean parsed from the `NTP synchronized:` line (its stripped,
lowercased value being `yes` or `true`), or a failure shape. -/
inductive ProbeOutcome where
  /-- Exit code 0 and an `NTP synchronized:` line present, parsed to `sync`. -/
  | ok (sync : Bool)
  /-- Exit code 0 but no line contains `NTP synchronized:`. -/
  | noLabel
  /-- The command ran but returned a non-zero exit code (no exception). -/
  | nonZeroExit
  /-- `subprocess.run` raised an `OSError`-style exception. -/
  | cmdError
  /-- `subprocess.run` raised `TimeoutExpired`. -/
  | timeout
deriving DecidableEq, Repr

/-- Boolean prefix test on character lists (elementwise comparison). -/
def isPrefixB : List Char → List Char → Bool
  | [], _ => true
  | _ :: _, [] => false
  | a :: as, b :: bs => a == b && isPrefixB as bs

/-- Python's substring operator `needle in hay` on strings: `needle` occurs
contiguously in `hay`. -/
def containsSub (needle hay : String) : Bool :=
  (List.range (hay.data.length + 1)).any fun i => isPrefixB needle.data (hay.data.drop i)

/-- `TimeManager._check_timezone`: on a successful probe with the label
present, `timezone_verified := EXPECTED_TIMEZONE in timezone_info`
(Python substring test); every failure shape sets it to `False`. -/
def check_timezone (s : TimeManager) (o : TzOutcome) : TimeManager :=
  match o with
  | .ok reported => { s with timezone_verified := containsSub EXPECTED_TIMEZONE reported }
  | .noLabel => { s with timezone_verified := false }
  | .nonZeroExit => { s with timezone_verified := false }
  | .cmdError => { s with timezone_verified := false }
  | .timeout => { s with timezone_verified := false }

/-- Success-branch statements shared by both NTP checks:
`ntp_synced = True; last_ntp_sync_time = now; ntp_loss_time = None;
offline_mode = False`. -/
def sync_success_update (s : TimeManager) (now : Nat) : TimeManager :=
  { s with ntp_synced := true
           last_ntp_sync_time := some now
           ntp_loss_time := none
           offline_mode := false }

/-- Failure-branch statements shared by both NTP checks:
`ntp_synced = False; if ntp_loss_time is None: ntp_loss_time = now;
offline_mode = True`. -/
def sync_failure_update (s : TimeManager) (now : Nat) : TimeManager :=
  { s with ntp_synced := false
           ntp_loss_time := match s.ntp_loss_time with
                            | none => some now
                            | some t => some t
           offline_mode := true }

/-- `TimeManager._check_ntp_sync` (the startup check).  With exit code 0 the
parsed flag (absent label parsing to `False`) selects the success or the
failure update.  A non-zero exit code changes nothing (the
`if result.returncode == 0:` has no `else` and `subprocess.run` does not
raise for it); the `except Exception` branch sets only `ntp_synced := False`
and `offline_mode := True`, leaving `ntp_loss_time` alone. -/
def check_ntp_sync (s : TimeManager) (o : ProbeOutcome) (now : Nat) : TimeManager :=
  match o with
  | .ok true => sync_success_update s now
  | .ok false => sync_failure_update s now
  | .noLabel => sync_failure_update s now
  | .nonZeroExit => s
  | .cmdError => { s with ntp_synced := false, offline_mode := true }
  | .timeout => { s with ntp_synced := false, offline_mode := true }

/-- `TimeManager._check_ntp_status_quiet` (the background check).  With exit
code 0 it updates only on an edge: sync observed while not currently synced
runs the success update; sync lost while currently synced runs the failure
update; otherwise nothing changes.  A non-zero exit code changes nothing.
The bare `except` branch runs the failure update, again only when currently
synced. -/
def check_ntp_status_quiet (s : TimeManager) (o : ProbeOutcome) (now : Nat) : TimeManager :=
  match o with
  | .ok true => if s.ntp_synced then s else sync_success_update s now
  | .ok false => if s.ntp_synced then sync_failure_update s now else s
  | .noLabel => if s.ntp_synced then sync_failure_update s now else s
  | .nonZeroExit => s
  | .cmdError => if s.ntp_synced then sync_failure_update s now else s
  | .timeout => if s.ntp_synced then sync_failure_update s now else s

/-- `TimeManager.monitor_dst_transition`: inert until startup diagnostics
are done; afterwards, when the previously recorded DST flag exists and
differs from the currently read one, appends a `DstEvent` (`springForward`
when the new flag is set, else `fallBack`) and records the new flag. -/
def monitor_dst_transition (s : TimeManager) (current_dst : Bool) (now : Nat) : TimeManager :=
  if !s.startup_diagnostics_done then s
  else
    match s.last_dst_state with
    | some prev =>
        if current_dst ≠ prev then
          { s with
              dst_transitions_logged := s.dst_transitions_logged ++
                [{ time := now
                   kind := if current_dst then .springForward else .fallBack
                   dst_active := current_dst }]
              last_dst_state := some current_dst }
        else s
    | none => s

/-- `TimeManager.verify_system_time`: runs `_check_timezone`, then
`_check_ntp_sync` (the latency self-test and the monitor start mutate no
modelled field), then records the DST flag read at entry and marks startup
diagnostics done; returns `timezone_verified` only. -/
def verify_system_time (s : TimeManager) (tz : TzOutcome) (o : ProbeOutcome)
    (current_dst : Bool) (now : Nat) : TimeManager × Bool :=
  let s1 := check_timezone s tz
  let s2 := check_ntp_sync s1 o now
  let s3 := { s2 with last_dst_state := some current_dst, startup_diagnostics_done := true }
  (s3, s3.timezone_verified)

/-- `TimeManager.get_offline_duration`: `now - ntp_loss_time` when
`ntp_loss_time` is set (a `datetime` is always truthy) and `offline_mode`
holds, else `None`. -/
def get_offline_duration (s : TimeManager) (now : Nat) : Option Int :=
  match s.ntp_loss_time with
  | some t => if s.offline_mode then some ((now : Int) - (t : Int)) else none
  | none => none

/-- Notification printed by `_ntp_monitor_loop` on a sync edge:
`NTP RESTORED` or `NTP LOST`. -/
inductive Notif where
  | restored
  | lost
deriving DecidableEq, Repr

/-- One iteration of the body of `TimeManager._ntp_monitor_loop` after the
sleep: remember `was_synced`, run the quiet check, then emit exactly one
notification on an observed edge of `ntp_synced` and none otherwise. -/
def ntp_monitor_step (s : TimeManager) (o : ProbeOutcome) (now : Nat) :
    TimeManager × Option Notif :=
  let was := s.ntp_synced
  let s2 := check_ntp_status_quiet s o now
  (s2, if !was && s2.ntp_synced then some .restored
       else if was && !s2.ntp_synced then some .lost
       else none)

/-- Notifications emitted by successive iterations of the monitor loop on a
list of parsed sync observations, one tick apart. -/
def monitorNotifs : TimeManager → List Bool → Nat → List (Option Notif)
  | _, [], _ => []
  | s, b :: rest, t =>
      (ntp_monitor_step s (.ok b) t).2 ::
        monitorNotifs (ntp_monitor_step s (.ok b) t).1 rest (t + 1)

/-- Edge-notification pattern stated by the spec: exactly one `restored` on a
false-to-true edge of the synced flag, exactly one `lost` on a true-to-false
edge, none when the observation repeats the current value. -/
def notifSpec : Bool → List Bool → List (Option Notif)
  | _, [] => []
  | prev, b :: rest =>
      (if !prev && b then some .restored
       else if prev && !b then some .lost
       else none) :: notifSpec b rest

/-- Trace of `ntp_loss_time` along a run of quiet background checks on parsed
sync observations, one value per processed observation. -/
def quietLossTrace : TimeManager → List Bool → Nat → List (Option Nat)
  | _, [], _ => []
  | s, b :: rest, t =>
      (check_ntp_status_quiet s (.ok b) t).ntp_loss_time ::
        quietLossTrace (check_ntp_status_quiet s (.ok b) t) rest (t + 1)

/-- Trace of `ntp_loss_time` over a whole observation sequence as the program
processes it: the first observation through the startup `_check_ntp_sync`
(from the `__init__` state, at tick 0), all later ones through the quiet
background check at ticks 1, 2, .... -/
def programLossTrace : List Bool → List (Option Nat)
  | [] => []
  | b :: rest =>
      (check_ntp_sync initTM (.ok b) 0).ntp_loss_time ::
        quietLossTrace (check_ntp_sync initTM (.ok b) 0) rest 1

/-- Sticky first-loss pattern stated by the spec: on a lost observation the
loss time is set to the current tick only when not yet set and kept
otherwise; on a regained observation it is cleared. -/
def lossSpec : Option Nat → List Bool → Nat → List (Option Nat)
  | _, [], _ => []
  | cur, b :: rest, t =>
      (if b then none
       else match cur with
            | none => some t
            | some u => some u) ::
        lossSpec (if b then none
                  else match cur with
                       | none => some t
                       | some u => some u) rest (t + 1)

/-- Run of `monitor_dst_transition` over a list of DST-flag reads at
successive ticks. -/
def dstRun : TimeManager → List Bool → Nat → TimeManager
  | s, [], _ => s
  | s, b :: rest, t => dstRun (monitor_dst_transition s b t) rest (t + 1)

/-- Event pattern stated by the spec: one event per adjacent pair of
differing observed DST flags, `springForward` when the new flag is set,
`fallBack` when it is cleared, stamped with the tick of the new flag. -/
def dstEventsSpec : Bool → List Bool → Nat → List DstEvent
  | _, [], _ => []
  | prev, b :: rest, t =>
      if b ≠ prev then
        { time := t
          kind := if b then .springForward else .fallBack
          dst_active := b } :: dstEventsSpec b rest (t + 1)
      else dstEventsSpec prev rest (t + 1)

/-- Python exception shapes that can cross the probe call inside the NTP
checks before the surrounding handler runs. -/
inductive PyExc where
  | timeoutExpired
  | osError
deriving DecidableEq, Repr

/-- Body of the `try:` block of `_check_ntp_sync`, with the exceptions the
probe can raise made explicit: a raising probe outcome aborts the body with
the exception; otherwise the body returns the updated state. -/
def check_ntp_sync_body (s : TimeManager) (o : ProbeOutcome) (now : Nat) :
    Except PyExc TimeManager :=
  match o with
  | .timeout => .error .timeoutExpired
  | .cmdError => .error .osError
  | .ok b => .ok (check_ntp_sync s (.ok b) now)
  | .noLabel => .ok (check_ntp_sync s .noLabel now)
  | .nonZeroExit => .ok s

/-- The whole `_check_ntp_sync` with its `except Exception` handler: every
exception of the body is caught and replaced by the handler's state update,
so the call itself never propagates an exception. -/
def check_ntp_sync_handled (s : TimeManager) (o : ProbeOutcome) (now : Nat) :
    Except PyExc TimeManager :=
  match check_ntp_sync_body s o now with
  | .ok s2 => .ok s2
  | .error _ => .ok { s with ntp_synced := false, offline_mode := true }

/-- State invariant of the sync-updating operations: a synced state carries
no loss time, and offline mode implies not synced. -/
def SyncInv (s : TimeManager) : Prop :=
  (s.ntp_synced = true → s.ntp_loss_time = none) ∧
  (s.offline_mode = true → s.ntp_synced = false)

instance (s : TimeManager) : Decidable (SyncInv s) := by
  unfold SyncInv
  infer_instance

/-! Helper lemmas shared by the claim theorems. -/

theorem isPrefixB_iff (n h : List Char) : isPrefixB n h = true ↔ n <+: h := by
  induction n generalizing h with
  | nil => simp [isPrefixB]
  | cons a as ih =>
    cases h with
    | nil => simp [isPrefixB]
    | cons b bs =>
      rw [isPrefixB, List.cons_prefix_cons, Bool.and_eq_true, beq_iff_eq, ih]

theorem containsSub_iff (n h : String) :
    containsSub n h = true ↔ n.data <:+: h.data := by
  unfold containsSub
  rw [List.any_eq_true]
  constructor
  · rintro ⟨i, _, hp⟩
    rw [isPrefixB_iff] at hp
    exact List.infix_iff_prefix_suffix.mpr ⟨h.data.drop i, hp, List.drop_suffix i h.data⟩
  · rintro ⟨s, t, hst⟩
    refine ⟨s.length, ?_, ?_⟩
    · rw [List.mem_range]
      have : s.length ≤ h.data.length := by
        rw [← hst]
        simp [List.length_append]
      omega
    · rw [isPrefixB_iff]
      have hdrop : h.data.drop s.length = n.data ++ t := by
        rw [← hst, List.append_assoc, List.drop_left]
      rw [hdrop]
      exact List.prefix_append _ _


theorem syncInv_initTM : SyncInv initTM := by decide

theorem syncInv_success (s : TimeManager) (now : Nat) :
    SyncInv (sync_success_update s now) := by
  unfold SyncInv sync_success_update
  simp

theorem syncInv_failure (s : TimeManager) (now : Nat) :
    SyncInv (sync_failure_update s now) := by
  unfold SyncInv sync_failure_update
  simp

theorem syncInv_check_ntp_sync (s : TimeManager) (o : ProbeOutcome) (now : Nat)
    (h : SyncInv s) : SyncInv (check_ntp_sync s o now) := by
  cases o with
  | ok b =>
    cases b with
    | true => exact syncInv_success s now
    | false => exact syncInv_failure s now
  | noLabel => exact syncInv_failure s now
  | nonZeroExit => exact h
  | cmdError => exact ⟨fun hx => (nomatch hx), fun _ => rfl⟩
  | timeout => exact ⟨fun hx => (nomatch hx), fun _ => rfl⟩

theorem syncInv_check_ntp_status_quiet (s : TimeManager) (o : ProbeOutcome) (now : Nat)
    (h : SyncInv s) : SyncInv (check_ntp_status_quiet s o now) := by
  cases o with
  | ok b =>
    cases b with
    | true =>
      by_cases hs : s.ntp_synced = true
      · simpa [check_ntp_status_quiet, hs] using h
      · simpa [check_ntp_status_quiet, hs] using syncInv_success s now
    | false =>
      by_cases hs : s.ntp_synced = true
      · simpa [check_ntp_status_quiet, hs] using syncInv_failure s now
      · simpa [check_ntp_status_quiet, hs] using h
  | noLabel =>
    by_cases hs : s.ntp_synced = true
    · simpa [check_ntp_status_quiet, hs] using syncInv_failure s now
    · simpa [check_ntp_status_quiet, hs] using h
  | nonZeroExit => exact h
  | cmdError =>
    by_cases hs : s.ntp_synced = true
    · simpa [check_ntp_status_quiet, hs] using syncInv_failure s now
    · simpa [check_ntp_status_quiet, hs] using h
  | timeout =>
    by_cases hs : s.ntp_synced = true
    · simpa [check_ntp_status_quiet, hs] using syncInv_failure s now
    · simpa [check_ntp_status_quiet, hs] using h

theorem quiet_step_loss (s : TimeManager) (b : Bool) (t : Nat)
    (h1 : s.ntp_synced = true → s.ntp_loss_time = none)
    (h2 : s.ntp_synced = false → s.ntp_loss_time.isSome = true) :
    (check_ntp_status_quiet s (.ok b) t).ntp_loss_time =
      (if b then none
       else match s.ntp_loss_time with
            | none => some t
            | some u => some u) := by
  cases b with
  | true =>
    by_cases hs : s.ntp_synced = true
    · simp [check_ntp_status_quiet, hs, h1 hs]
    · simp [check_ntp_status_quiet, hs, sync_success_update]
  | false =>
    by_cases hs : s.ntp_synced = true
    · simp [check_ntp_status_quiet, hs, sync_failure_update, h1 hs]
    · have hx : s.ntp_loss_time.isSome = true := h2 (by simpa using hs)
      obtain ⟨u, hu⟩ := Option.isSome_iff_exists.mp hx
      simp [check_ntp_status_quiet, hs, hu]

theorem quiet_step_lossInv (s : TimeManager) (b : Bool) (t : Nat)
    (h1 : s.ntp_synced = true → s.ntp_loss_time = none)
    (h2 : s.ntp_synced = false → s.ntp_loss_time.isSome = true) :
    ((check_ntp_status_quiet s (.ok b) t).ntp_synced = true →
       (check_ntp_status_quiet s (.ok b) t).ntp_loss_time = none) ∧
    ((check_ntp_status_quiet s (.ok b) t).ntp_synced = false →
       (check_ntp_status_quiet s (.ok b) t).ntp_loss_time.isSome = true) := by
  cases b with
  | true =>
    by_cases hs : s.ntp_synced = true
    · have he : check_ntp_status_quiet s (.ok true) t = s := by
        simp [check_ntp_status_quiet, hs]
      rw [he]
      exact ⟨h1, h2⟩
    · have he : check_ntp_status_quiet s (.ok true) t = sync_success_update s t := by
        simp [check_ntp_status_quiet, hs]
      rw [he]
      exact ⟨fun _ => rfl, fun hx => nomatch hx⟩
  | false =>
    by_cases hs : s.ntp_synced = true
    · have he : check_ntp_status_quiet s (.ok false) t = sync_failure_update s t := by
        simp [check_ntp_status_quiet, hs]
      rw [he]
      refine ⟨fun hx => (nomatch hx), fun _ => ?_⟩
      cases hu : s.ntp_loss_time <;> simp [sync_failure_update, hu]
    · have he : check_ntp_status_quiet s (.ok false) t = s := by
        simp [check_ntp_status_quiet, hs]
      rw [he]
      exact ⟨h1, h2⟩

theorem quiet_lossTrace_eq (obs : List Bool) : ∀ (s : TimeManager) (t : Nat),
    (s.ntp_synced = true → s.ntp_loss_time = none) →
    (s.ntp_synced = false → s.ntp_loss_time.isSome = true) →
    quietLossTrace s obs t = lossSpec s.ntp_loss_time obs t := by
  induction obs with
  | nil => intro s t _ _; rfl
  | cons b rest ih =>
    intro s t h1 h2
    have hstep := quiet_step_loss s b t h1 h2
    have hinv := quiet_step_lossInv s b t h1 h2
    simp only [quietLossTrace, lossSpec, hstep]
    refine congrArg _ ?_
    rw [ih (check_ntp_status_quiet s (.ok b) t) (t + 1) hinv.1 hinv.2, hstep]

theorem check_ntp_sync_keeps_tz (s : TimeManager) (o : ProbeOutcome) (now : Nat) :
    (check_ntp_sync s o now).timezone_verified = s.timezone_verified := by
  cases o with
  | ok b => cases b <;> rfl
  | noLabel => rfl
  | nonZeroExit => rfl
  | cmdError => rfl
  | timeout => rfl

/-! Claim theorems. -/

/-- C6: on probe success `_check_timezone` sets `timezone_verified` to true
exactly when the expected zone identifier occurs as a substring of the
reported timezone text; every probe failure shape (command error, non-zero
exit, timeout, missing `Time zone:` label) sets it to false; reported
`Europe/Amsterdam` verifies true and reported `UTC` verifies false. -/
theorem claim_C6_timezone_substring_policy :
    (∀ (s : TimeManager) (reported : String),
        (check_timezone s (.ok reported)).timezone_verified = true ↔
          EXPECTED_TIMEZONE.data <:+: reported.data) ∧
    (∀ s : TimeManager,
        (check_timezone s .noLabel).timezone_verified = false ∧
        (check_timezone s .nonZeroExit).timezone_verified = false ∧
        (check_timezone s .cmdError).timezone_verified = false ∧
        (check_timezone s .timeout).timezone_verified = false) ∧
    (∀ s : TimeManager,
        (check_timezone s (.ok "Europe/Amsterdam")).timezone_verified = true ∧
        (check_timezone s (.ok "UTC")).timezone_verified = false) := by
  refine ⟨?_, ?_, ?_⟩
  · intro s reported
    exact containsSub_iff EXPECTED_TIMEZONE reported
  · intro s
    exact ⟨rfl, rfl, rfl, rfl⟩
  · intro s
    constructor
    · show containsSub EXPECTED_TIMEZONE "Europe/Amsterdam" = true
      decide
    · show containsSub EXPECTED_TIMEZONE "UTC" = false
      decide

/-- C7: `get_offline_duration` returns `now - ntp_loss_time` exactly when
`offline_mode` holds and `ntp_loss_time` is set, and `none` otherwise (in
particular whenever `offline_mode` is false); with the loss time fixed at
`t0` the duration at `t0 + 300` is at least 300 ticks and the duration
strictly increases with the query time. -/
theorem claim_C7_offline_duration : ∀ (s : TimeManager) (now : Nat),
    (∀ d : Int, get_offline_duration s now = some d ↔
        s.offline_mode = true ∧ ∃ t0 : Nat, s.ntp_loss_time = some t0 ∧
          d = (now : Int) - (t0 : Int)) ∧
    (s.offline_mode = false → get_offline_duration s now = none) ∧
    (s.ntp_loss_time = none → get_offline_duration s now = none) ∧
    (∀ t0 : Nat, s.offline_mode = true → s.ntp_loss_time = some t0 →
        (∃ d : Int, get_offline_duration s (t0 + 300) = some d ∧ (300 : Int) ≤ d) ∧
        (∀ (t t' : Nat), t < t' → ∀ (d d' : Int),
            get_offline_duration s t = some d →
            get_offline_duration s t' = some d' → d < d')) := by
  intro s now
  refine ⟨?_, ?_, ?_, ?_⟩
  · intro d
    cases hl : s.ntp_loss_time with
    | none => simp [get_offline_duration, hl]
    | some t0 =>
      by_cases ho : s.offline_mode = true
      · simp [get_offline_duration, hl, ho, eq_comm]
      · simp [get_offline_duration, hl, ho]
  · intro ho
    cases hl : s.ntp_loss_time with
    | none => rw [get_offline_duration, hl]
    | some t0 => simp [get_offline_duration, hl, ho]
  · intro hl
    rw [get_offline_duration, hl]
  · intro t0 ho hl
    constructor
    · refine ⟨((t0 + 300 : Nat) : Int) - (t0 : Int), ?_, by push_cast; omega⟩
      simp [get_offline_duration, hl, ho]
    · intro t t' htt d d' hd hd'
      simp [get_offline_duration, hl, ho] at hd hd'
      omega

/-- C5: `verify_system_time` returns exactly the `timezone_verified` flag
computed by the timezone check, independently of the NTP probe outcome, and
afterwards `last_dst_state` holds the DST flag read at startup and
`startup_diagnostics_done` is true. -/
theorem claim_C5_verify_returns_timezone_only :
    ∀ (s : TimeManager) (tz : TzOutcome) (o o2 : ProbeOutcome)
      (current_dst : Bool) (now : Nat),
      (verify_system_time s tz o current_dst now).2 =
        (check_timezone s tz).timezone_verified ∧
      (verify_system_time s tz o current_dst now).2 =
        (verify_system_time s tz o2 current_dst now).2 ∧
      (verify_system_time s tz o current_dst now).1.last_dst_state = some current_dst ∧
      (verify_system_time s tz o current_dst now).1.startup_diagnostics_done = true := by
  intro s tz o o2 current_dst now
  refine ⟨?_, ?_, rfl, rfl⟩
  · show (check_ntp_sync (check_timezone s tz) o now).timezone_verified =
      (check_timezone s tz).timezone_verified
    exact check_ntp_sync_keeps_tz _ o now
  · show (check_ntp_sync (check_timezone s tz) o now).timezone_verified =
      (check_ntp_sync (check_timezone s tz) o2 now).timezone_verified
    rw [check_ntp_sync_keeps_tz, check_ntp_sync_keeps_tz]

theorem dst_step_facts (s : TimeManager) (b prev : Bool) (t : Nat)
    (hd : s.startup_diagnostics_done = true) (hl : s.last_dst_state = some prev) :
    (monitor_dst_transition s b t).dst_transitions_logged =
      s.dst_transitions_logged ++
        (if b ≠ prev then
           [{ time := t
              kind := if b then .springForward else .fallBack
              dst_active := b }]
         else []) ∧
    (monitor_dst_transition s b t).last_dst_state = some b ∧
    (monitor_dst_transition s b t).startup_diagnostics_done = true := by
  by_cases hb : b = prev
  · subst hb
    simp [monitor_dst_transition, hd, hl]
  · simp [monitor_dst_transition, hd, hl, hb]

theorem dstRun_facts (rest : List Bool) : ∀ (s : TimeManager) (prev : Bool) (t : Nat),
    s.startup_diagnostics_done = true → s.last_dst_state = some prev →
    (dstRun s rest t).dst_transitions_logged =
      s.dst_transitions_logged ++ dstEventsSpec prev rest t ∧
    (dstRun s rest t).last_dst_state = some (rest.foldl (fun _ b => b) prev) := by
  induction rest with
  | nil =>
    intro s prev t hd hl
    exact ⟨(List.append_nil _).symm, hl⟩
  | cons b rest ih =>
    intro s prev t hd hl
    obtain ⟨hlog, hlast, hdone⟩ := dst_step_facts s b prev t hd hl
    have hrec := ih (monitor_dst_transition s b t) b (t + 1) hdone hlast
    constructor
    · show (dstRun (monitor_dst_transition s b t) rest (t + 1)).dst_transitions_logged = _
      rw [hrec.1, hlog]
      by_cases hb : b = prev
      · subst hb
        simp [dstEventsSpec]
      · simp [dstEventsSpec, hb]
    · show (dstRun (monitor_dst_transition s b t) rest (t + 1)).last_dst_state = _
      rw [hrec.2]
      rfl

/-- C4: once startup diagnostics are done, a run of `monitor_dst_transition`
appends exactly one event per adjacent pair of differing observed DST flags
(`springForward` when the new flag is set, else `fallBack`) and tracks the
last observed flag in `last_dst_state`; before startup diagnostics the call
changes nothing; the observation sequence `[false, false, true, true, false]`
(first flag recorded at startup, the rest ticked) yields exactly the two
events `springForward` then `fallBack`. -/
theorem claim_C4_dst_flip_events :
    (∀ (s : TimeManager) (b : Bool) (t : Nat),
        s.startup_diagnostics_done = false → monitor_dst_transition s b t = s) ∧
    (∀ (s : TimeManager) (prev : Bool) (rest : List Bool) (t : Nat),
        s.startup_diagnostics_done = true → s.last_dst_state = some prev →
        (dstRun s rest t).dst_transitions_logged =
          s.dst_transitions_logged ++ dstEventsSpec prev rest t ∧
        (dstRun s rest t).last_dst_state = some (rest.foldl (fun _ b => b) prev)) ∧
    (dstRun { initTM with startup_diagnostics_done := true, last_dst_state := some false }
        [false, true, true, false] 1).dst_transitions_logged =
      [{ time := 2, kind := .springForward, dst_active := true },
       { time := 4, kind := .fallBack, dst_active := false }] := by
  refine ⟨?_, ?_, by decide⟩
  · intro s b t hd
    simp [monitor_dst_transition, hd]
  · intro s prev rest t hd hl
    exact dstRun_facts rest s prev t hd hl

theorem claim_C4_dst_flip_events_witness :
    monitor_dst_transition initTM true 9 = initTM ∧
    (dstRun { initTM with startup_diagnostics_done := true, last_dst_state := some true }
        [true, false] 1).dst_transitions_logged =
      initTM.dst_transitions_logged ++ dstEventsSpec true [true, false] 1 :=
  ⟨claim_C4_dst_flip_events.1 initTM true 9 rfl,
   (claim_C4_dst_flip_events.2.1
      { initTM with startup_diagnostics_done := true, last_dst_state := some true }
      true [true, false] 1 rfl rfl).1⟩

/-- C8: along any run of the background monitor loop the emitted
notification stream is exactly the edge pattern of the synced flag: one
`restored` per false-to-true edge, one `lost` per true-to-false edge, and
none on a repeated observation; moreover after each processed observation
`ntp_synced` equals the observed flag. -/
theorem claim_C8_no_duplicate_notifications :
    (∀ (s : TimeManager) (obs : List Bool) (t : Nat),
        monitorNotifs s obs t = notifSpec s.ntp_synced obs) ∧
    (∀ (s : TimeManager) (b : Bool) (t : Nat),
        (check_ntp_status_quiet s (.ok b) t).ntp_synced = b) := by
  have hsync : ∀ (s : TimeManager) (b : Bool) (t : Nat),
      (check_ntp_status_quiet s (.ok b) t).ntp_synced = b := by
    intro s b t
    cases b with
    | true =>
      by_cases hs : s.ntp_synced = true
      · simp [check_ntp_status_quiet, hs]
      · simp [check_ntp_status_quiet, hs, sync_success_update]
    | false =>
      by_cases hs : s.ntp_synced = true
      · simp [check_ntp_status_quiet, hs, sync_failure_update]
      · simp [check_ntp_status_quiet, hs]
  refine ⟨?_, hsync⟩
  intro s obs
  induction obs generalizing s with
  | nil => intro t; rfl
  | cons b rest ih =>
    intro t
    simp only [monitorNotifs, notifSpec, ntp_monitor_step]
    rw [hsync s b t, ih (check_ntp_status_quiet s (.ok b) t) (t + 1), hsync s b t]

/-- C1: over any observation sequence processed by the program (the first
observation through the startup `_check_ntp_sync`, later ones through the
background quiet check), the trace of `ntp_loss_time` follows the sticky
first-loss pattern: set to the current tick at the first lost observation,
kept unchanged over repeated lost observations, cleared exactly by a
regained observation; on `[true, false, false, true]` it is set exactly
once, at the first `false`, and cleared on the final `true`. -/
theorem claim_C1_sticky_first_loss :
    (∀ obs : List Bool, programLossTrace obs = lossSpec none obs 0) ∧
    programLossTrace [true, false, false, true] = [none, some 1, some 1, none] := by
  refine ⟨?_, by decide⟩
  intro obs
  cases obs with
  | nil => rfl
  | cons b rest =>
    cases b with
    | true =>
      have h := quiet_lossTrace_eq rest (check_ntp_sync initTM (.ok true) 0) 1
        (fun _ => rfl) (fun hx => (nomatch hx))
      show (check_ntp_sync initTM (.ok true) 0).ntp_loss_time ::
          quietLossTrace (check_ntp_sync initTM (.ok true) 0) rest 1 = _
      rw [h]
      rfl
    | false =>
      have h := quiet_lossTrace_eq rest (check_ntp_sync initTM (.ok false) 0) 1
        (fun hx => (nomatch hx)) (fun _ => rfl)
      show (check_ntp_sync initTM (.ok false) 0).ntp_loss_time ::
          quietLossTrace (check_ntp_sync initTM (.ok false) 0) rest 1 = _
      rw [h]
      rfl

/-- C10: the initial state satisfies the sync invariant (synced implies no
recorded loss time, offline implies not synced), and both the startup NTP
check and the quiet background check preserve it under every probe
outcome. -/
theorem claim_C10_sync_invariant :
    SyncInv initTM ∧
    (∀ (s : TimeManager) (o : ProbeOutcome) (now : Nat),
        SyncInv s → SyncInv (check_ntp_sync s o now)) ∧
    (∀ (s : TimeManager) (o : ProbeOutcome) (now : Nat),
        SyncInv s → SyncInv (check_ntp_status_quiet s o now)) :=
  ⟨syncInv_initTM, syncInv_check_ntp_sync, syncInv_check_ntp_status_quiet⟩

theorem claim_C10_sync_invariant_witness :
    SyncInv (check_ntp_sync initTM ProbeOutcome.timeout 5) ∧
    SyncInv (check_ntp_status_quiet initTM (ProbeOutcome.ok true) 3) :=
  ⟨claim_C10_sync_invariant.2.1 initTM ProbeOutcome.timeout 5 (by decide),
   claim_C10_sync_invariant.2.2 initTM (ProbeOutcome.ok true) 3 (by decide)⟩

/-- C2 counterexample: from the initial state, a probe failure in the shape
of a non-zero exit status leaves `_check_ntp_sync` without any state change,
so the claimed postcondition (`ntp_synced = false`, `offline_mode = true`,
`ntp_loss_time` set to the current time since it was `none`) fails. -/
theorem claim_C2_counterexample :
    ¬ ((check_ntp_sync initTM ProbeOutcome.nonZeroExit 5).ntp_synced = false ∧
       (check_ntp_sync initTM ProbeOutcome.nonZeroExit 5).offline_mode = true ∧
       (check_ntp_sync initTM ProbeOutcome.nonZeroExit 5).ntp_loss_time = some 5) := by
  decide

/-- C2 (amended): `_check_ntp_sync` runs the full failure update (synced
cleared, offline set, loss time set to now exactly when previously `none`)
when the probe parses `synced = false` or the label line is missing with
exit code 0; on a raising probe (command error or timeout) it clears
`ntp_synced` and sets `offline_mode` but leaves `ntp_loss_time` unchanged;
on a non-zero exit status it changes nothing. -/
theorem claim_C2_amended_failure_paths :
    ∀ (s : TimeManager) (o : ProbeOutcome) (now : Nat),
    ((o = .ok false ∨ o = .noLabel) →
        (check_ntp_sync s o now).ntp_synced = false ∧
        (check_ntp_sync s o now).offline_mode = true ∧
        (check_ntp_sync s o now).ntp_loss_time = some (s.ntp_loss_time.getD now)) ∧
    ((o = .cmdError ∨ o = .timeout) →
        (check_ntp_sync s o now).ntp_synced = false ∧
        (check_ntp_sync s o now).offline_mode = true ∧
        (check_ntp_sync s o now).ntp_loss_time = s.ntp_loss_time) ∧
    (o = .nonZeroExit → check_ntp_sync s o now = s) := by
  intro s o now
  refine ⟨?_, ?_, ?_⟩
  · rintro (rfl | rfl) <;>
      exact ⟨rfl, rfl, by cases hl : s.ntp_loss_time <;>
        simp [check_ntp_sync, sync_failure_update, hl]⟩
  · rintro (rfl | rfl) <;> exact ⟨rfl, rfl, rfl⟩
  · rintro rfl
    rfl

theorem claim_C2_amended_witness :
    (check_ntp_sync initTM (ProbeOutcome.ok false) 7).ntp_synced = false ∧
    (check_ntp_sync initTM (ProbeOutcome.ok false) 7).offline_mode = true ∧
    (check_ntp_sync initTM (ProbeOutcome.ok false) 7).ntp_loss_time =
      some (initTM.ntp_loss_time.getD 7) :=
  (claim_C2_amended_failure_paths initTM (ProbeOutcome.ok false) 7).1 (Or.inl rfl)

/-- C3 counterexample: from the initial state (`ntp_synced = false`,
`offline_mode = false`, `ntp_loss_time = none`) and the observation
`synced = false`, the quiet background check changes nothing while the
startup check sets `offline_mode` and the loss time, so the two updates are
not identical for every starting state and outcome. -/
theorem claim_C3_counterexample :
    check_ntp_status_quiet initTM (ProbeOutcome.ok false) 1 ≠
      check_ntp_sync initTM (ProbeOutcome.ok false) 1 := by
  decide

/-- C3 (amended): the quiet background update coincides with the startup
update on every parsed observation that flips the current `ntp_synced` flag
and on a non-zero exit status; it is a no-op on a parsed observation equal
to the current flag (where the startup check may still change state), it is
a no-op on the missing-label shape when not synced, and on a raising probe
(command error or timeout) the two coincide exactly when currently synced
with a loss time already recorded. -/
theorem claim_C3_amended_quiet_vs_startup :
    ∀ (s : TimeManager) (now : Nat),
    (∀ b : Bool, s.ntp_synced ≠ b →
        check_ntp_status_quiet s (.ok b) now = check_ntp_sync s (.ok b) now) ∧
    (s.ntp_synced = true →
        check_ntp_status_quiet s .noLabel now = check_ntp_sync s .noLabel now) ∧
    (check_ntp_status_quiet s .nonZeroExit now = check_ntp_sync s .nonZeroExit now) ∧
    (∀ b : Bool, s.ntp_synced = b → check_ntp_status_quiet s (.ok b) now = s) ∧
    (s.ntp_synced = false → check_ntp_status_quiet s .noLabel now = s) ∧
    (∀ o : ProbeOutcome, (o = .cmdError ∨ o = .timeout) →
        s.ntp_synced = true → s.ntp_loss_time.isSome = true →
        check_ntp_status_quiet s o now = check_ntp_sync s o now) := by
  intro s now
  refine ⟨?_, ?_, rfl, ?_, ?_, ?_⟩
  · intro b hb
    cases b with
    | true =>
      have hs : s.ntp_synced = false := by
        cases hx : s.ntp_synced
        · rfl
        · exact absurd hx hb
      simp [check_ntp_status_quiet, check_ntp_sync, hs]
    | false =>
      have hs : s.ntp_synced = true := by
        cases hx : s.ntp_synced
        · exact absurd hx hb
        · rfl
      simp [check_ntp_status_quiet, check_ntp_sync, hs]
  · intro hs
    simp [check_ntp_status_quiet, check_ntp_sync, hs]
  · intro b hb
    cases b with
    | true => simp [check_ntp_status_quiet, hb]
    | false => simp [check_ntp_status_quiet, hb]
  · intro hs
    simp [check_ntp_status_quiet, hs]
  · rintro o (rfl | rfl) hs hl <;>
    · obtain ⟨u, hu⟩ := Option.isSome_iff_exists.mp hl
      simp [check_ntp_status_quiet, check_ntp_sync, sync_failure_update, hs, hu]

theorem claim_C3_amended_witness :
    check_ntp_status_quiet initTM (ProbeOutcome.ok true) 4 =
      check_ntp_sync initTM (ProbeOutcome.ok true) 4 ∧
    check_ntp_status_quiet initTM (ProbeOutcome.ok false) 4 = initTM :=
  ⟨(claim_C3_amended_quiet_vs_startup initTM 4).1 true (by decide),
   (claim_C3_amended_quiet_vs_startup initTM 4).2.2.2.1 false (by decide)⟩

/-- C9: the `try/except` structure of `_check_ntp_sync` confines every probe
exception: the handled call always returns a state (never propagates an
error), and for a probe that times out or returns text without the expected
label the resulting state has `offline_mode = true`. -/
theorem claim_C9_probe_failure_containment :
    ∀ (s : TimeManager) (o : ProbeOutcome) (now : Nat),
    (∃ s2, check_ntp_sync_handled s o now = Except.ok s2) ∧
    ((o = .timeout ∨ o = .noLabel) →
        check_ntp_sync_handled s o now = Except.ok (check_ntp_sync s o now) ∧
        (check_ntp_sync s o now).offline_mode = true) := by
  intro s o now
  constructor
  · cases o with
    | ok b => cases b <;> exact ⟨_, rfl⟩
    | noLabel => exact ⟨_, rfl⟩
    | nonZeroExit => exact ⟨_, rfl⟩
    | cmdError => exact ⟨_, rfl⟩
    | timeout => exact ⟨_, rfl⟩
  · rintro (rfl | rfl)
    · exact ⟨rfl, rfl⟩
    · exact ⟨rfl, rfl⟩

theorem claim_C9_probe_failure_containment_witness :
    check_ntp_sync_handled initTM ProbeOutcome.timeout 2 =
      Except.ok (check_ntp_sync initTM ProbeOutcome.timeout 2) ∧
    (check_ntp_sync initTM ProbeOutcome.timeout 2).offline_mode = true :=
  (claim_C9_probe_failure_containment initTM ProbeOutcome.timeout 2).2 (Or.inl rfl)

theorem claim_C7_offline_duration_witness :
    (∃ d : Int, get_offline_duration
        { initTM with offline_mode := true, ntp_loss_time := some 10 } (10 + 300) = some d ∧
        (300 : Int) ≤ d) ∧
    get_offline_duration initTM 5 = none :=
  ⟨((claim_C7_offline_duration
      { initTM with offline_mode := true, ntp_loss_time := some 10 } 0).2.2.2 10 rfl rfl).1,
   (claim_C7_offline_duration initTM 5).2.1 rfl⟩
